import Mathlib

/-!
Verification of the AgentGuard transaction-vetting core.

Shallow embedding of the TypeScript sources `src/firewall/allowlist.ts`,
`src/firewall/limits.ts`, `src/firewall/index.ts`, `src/firewall/simulator.ts`
and `src/audit/onchain.ts`.

Modelling conventions:
- Program ids, dates and warning texts are `String`s; JavaScript
  `toLowerCase()` on base58 ids is `jsToLower` (ASCII lowering).
- JavaScript `Set<string>` fields are `List String` with `contains`
  membership (dedup is irrelevant to membership).
- Spend amounts are `Nat` (the spec fixes them as unsigned smallest-unit
  integers; `Math.max(0, x - y)` becomes truncated `Nat` subtraction).
- The wall clock is made explicit: every operation that calls
  `getTodayDate()` takes the current date string `today` as a parameter.
- Mutation of `this` becomes explicit state passing: a method that mutates
  returns the new state.
- Human-readable `reason` strings are embedded structurally as the
  inductive `Reason`; each constructor records exactly the data the
  TypeScript template string interpolates.
-/

/-- JavaScript `p.toLowerCase()` as applied to base58 program ids
(`allowlist.ts`); ASCII case lowering, character by character (spelled on
the character list so that it evaluates by kernel reduction). -/
def jsToLower (s : String) : String := ⟨s.data.map Char.toLower⟩

/-- `KNOWN_MALICIOUS_PROGRAMS` from `src/firewall/allowlist.ts` — shipped
empty ("Add known malicious program addresses here"). -/
def KNOWN_MALICIOUS_PROGRAMS : List String := []

/-- `SAFE_SYSTEM_PROGRAMS` from `src/firewall/allowlist.ts`. -/
def SAFE_SYSTEM_PROGRAMS : List String :=
  ["11111111111111111111111111111111",
   "TokenkegQfeZyiNwAJbNbGKPFXCWuBvf9Ss623VQ5DA",
   "ATokenGPvbdGVxr1b2hvZbsiqW5xWH25efTNsLJA8knL",
   "ComputeBudget111111111111111111111111111111",
   "MemoSq4gqABAXKb96qnH8TysNcWxMyWCqXgDLGmfcHr",
   "metaqbxxUerdq28cj1RbAWkYQm3ybzjb6a8bt518x1s"]

/-- The `status` field of `ProgramCheckResult` in `allowlist.ts`. -/
inductive ProgramStatus where
  | allowed
  | blocked
  | not_in_allowlist
  | system_safe
deriving DecidableEq, Repr

/-- Structural embedding of the human-readable `reason` strings produced by
the firewall components.  Each constructor stands for one TypeScript
template string and records the interpolated data:
- `programBlocked id` — "Program {id} is blocked (malicious or user-blocked)"
- `programNotInAllowlist id` — "Program {id} is not in allowlist"
- `perTxExceeded amount maxPerTx` — "Transaction amount {amount} exceeds
  per-tx limit of {maxPerTx}"
- `dailyExceeded current amount maxDaily` — "Transaction would exceed daily
  limit. Current: {current}, Tx: {amount}, Limit: {maxDaily}"
- `simulationFailed error` — "Simulation failed: {error}" -/
inductive Reason where
  | programBlocked (id : String)
  | programNotInAllowlist (id : String)
  | perTxExceeded (amount maxPerTx : Nat)
  | dailyExceeded (current amount maxDaily : Nat)
  | simulationFailed (error : Option String)
deriving DecidableEq, Repr

/-- `ProgramCheckResult` from `src/firewall/allowlist.ts`. -/
structure ProgramCheckResult where
  allowed : Bool
  reason : Option Reason
  programId : String
  status : ProgramStatus
deriving DecidableEq, Repr

/-- `AllowlistConfig` from `src/firewall/allowlist.ts`; `Option` models the
optional (`?:`) TypeScript fields. -/
structure AllowlistConfig where
  allowedPrograms : Option (List String)
  blockedPrograms : Option (List String)
  allowSystemPrograms : Option Bool
deriving DecidableEq, Repr

/-- The private state of a `ProgramAllowlist` instance (`allowlist.ts`). -/
structure ProgramAllowlist where
  allowlist : Option (List String)
  blocklist : List String
  systemPrograms : List String
  allowSystemPrograms : Bool
deriving DecidableEq, Repr

/-- The `ProgramAllowlist` constructor (`allowlist.ts` lines 42-57):
lowercases every configured id, merges the built-in blocklist with the
user blocklist, and defaults `allowSystemPrograms` to `true`. -/
def ProgramAllowlist.ofConfig (config : AllowlistConfig) : ProgramAllowlist where
  allowlist := config.allowedPrograms.map (fun ps => ps.map jsToLower)
  blocklist := (KNOWN_MALICIOUS_PROGRAMS ++ config.blockedPrograms.getD []).map jsToLower
  systemPrograms := SAFE_SYSTEM_PROGRAMS.map jsToLower
  allowSystemPrograms := config.allowSystemPrograms.getD true

/-- `ProgramAllowlist.check` (`allowlist.ts` lines 62-108): blocklist first,
then system-safe set, then allowlist mode, then default allow. -/
def ProgramAllowlist.check (self : ProgramAllowlist) (programId : String) :
    ProgramCheckResult :=
  let id := programId
  let idLower := jsToLower id
  if self.blocklist.contains idLower then
    { allowed := false, reason := some (.programBlocked id),
      programId := id, status := .blocked }
  else if self.allowSystemPrograms && self.systemPrograms.contains idLower then
    { allowed := true, reason := none, programId := id, status := .system_safe }
  else
    match self.allowlist with
    | some al =>
      if al.contains idLower then
        { allowed := true, reason := none, programId := id, status := .allowed }
      else
        { allowed := false, reason := some (.programNotInAllowlist id),
          programId := id, status := .not_in_allowlist }
    | none =>
      { allowed := true, reason := none, programId := id, status := .allowed }

/-- `ProgramAllowlist.checkAll` (`allowlist.ts` lines 113-115). -/
def ProgramAllowlist.checkAll (self : ProgramAllowlist)
    (programIds : List String) : List ProgramCheckResult :=
  programIds.map self.check

/-- `ProgramAllowlist.addToBlocklist` (`allowlist.ts` lines 120-122):
`Set.add` of the lowercased id. -/
def ProgramAllowlist.addToBlocklist (self : ProgramAllowlist)
    (programId : String) : ProgramAllowlist :=
  { self with blocklist := self.blocklist.insert (jsToLower programId) }

/-- `ProgramAllowlist.addToAllowlist` (`allowlist.ts` lines 127-133):
returns the new state and the boolean result (`false` when not in
allowlist mode). -/
def ProgramAllowlist.addToAllowlist (self : ProgramAllowlist)
    (programId : String) : ProgramAllowlist × Bool :=
  match self.allowlist with
  | none => (self, false)
  | some al => ({ self with allowlist := some (al.insert (jsToLower programId)) }, true)

/-- The private state of a `SpendingLimits` instance (`limits.ts`). -/
structure SpendingLimits where
  dailySpend : Nat
  lastResetDate : String
  maxDaily : Nat
  maxPerTx : Nat
deriving DecidableEq, Repr

/-- `SpendingCheckResult` from `src/firewall/limits.ts`. -/
structure SpendingCheckResult where
  allowed : Bool
  reason : Option Reason
  currentDailySpend : Nat
  remainingDaily : Nat
deriving DecidableEq, Repr

/-- `maybeResetDaily` (`limits.ts` lines 301-307): lazy day rollover — if
the stored date differs from today, reset `dailySpend` in place. -/
def SpendingLimits.maybeResetDaily (self : SpendingLimits) (today : String) :
    SpendingLimits :=
  if today ≠ self.lastResetDate then
    { self with dailySpend := 0, lastResetDate := today }
  else
    self

/-- `SpendingLimits.check` (`limits.ts` lines 242-271).  Returns the result
together with the state after the lazy rollover (the only mutation `check`
performs).  `Math.max(0, maxDaily - dailySpend)` is truncated `Nat`
subtraction. -/
def SpendingLimits.check (self : SpendingLimits) (today : String)
    (amountLamports : Nat) : SpendingCheckResult × SpendingLimits :=
  let s := self.maybeResetDaily today
  if amountLamports > s.maxPerTx then
    ({ allowed := false,
       reason := some (.perTxExceeded amountLamports s.maxPerTx),
       currentDailySpend := s.dailySpend,
       remainingDaily := s.maxDaily - s.dailySpend }, s)
  else
    let projectedDaily := s.dailySpend + amountLamports
    if projectedDaily > s.maxDaily then
      ({ allowed := false,
         reason := some (.dailyExceeded s.dailySpend amountLamports s.maxDaily),
         currentDailySpend := s.dailySpend,
         remainingDaily := s.maxDaily - s.dailySpend }, s)
    else
      ({ allowed := true, reason := none,
         currentDailySpend := s.dailySpend,
         remainingDaily := s.maxDaily - projectedDaily }, s)

/-- `SpendingLimits.recordSpend` (`limits.ts` lines 276-279): rollover, then
unconditionally add the amount — no re-validation against the caps. -/
def SpendingLimits.recordSpend (self : SpendingLimits) (today : String)
    (amountLamports : Nat) : SpendingLimits :=
  let s := self.maybeResetDaily today
  { s with dailySpend := s.dailySpend + amountLamports }

/-- `SpendingLimits.resetDailySpend` (`limits.ts` lines 284-287). -/
def SpendingLimits.resetDailySpend (self : SpendingLimits) (today : String) :
    SpendingLimits :=
  { self with dailySpend := 0, lastResetDate := today }

/-- One sequential operation on a `SpendingLimits` instance, tagged with the
calendar date at which it executes. -/
inductive SpendOp where
  | check (today : String) (amount : Nat)
  | recordSpend (today : String) (amount : Nat)
  | resetDailySpend (today : String)
deriving DecidableEq, Repr

/-- State transition of one `SpendOp` (`check` contributes only its lazy
rollover). -/
def SpendingLimits.applyOp (self : SpendingLimits) : SpendOp → SpendingLimits
  | .check today amount => (self.check today amount).2
  | .recordSpend today amount => self.recordSpend today amount
  | .resetDailySpend today => self.resetDailySpend today

/-- Sequential execution of a list of operations. -/
def SpendingLimits.applyOps (self : SpendingLimits) (ops : List SpendOp) :
    SpendingLimits :=
  ops.foldl SpendingLimits.applyOp self

/-- A sequence of operations is check-guarded when every `recordSpend` in it
records an amount that `check` approves in the state, and on the date, at
which that `recordSpend` executes — the calling discipline `limits.ts`
documents ("callers must call check first"). -/
def SpendingLimits.guardedOps (self : SpendingLimits) : List SpendOp → Bool
  | [] => true
  | op :: rest =>
    (match op with
     | .recordSpend today amount => (self.check today amount).1.allowed
     | _ => true) && (self.applyOp op).guardedOps rest

/-- The base58 id of the native system program
(`'11111111111111111111111111111111'` in `simulator.ts`). -/
def SYSTEM_PROGRAM_ID : String := "11111111111111111111111111111111"

/-- One transaction instruction as the spend estimator sees it: a target
program id and an opaque byte payload (`TransactionInstruction` /
`MessageCompiledInstruction`; bytes are `Nat`s, 0-255 in well-formed
buffers). -/
structure TransactionInstruction where
  programId : String
  data : List Nat
deriving DecidableEq, Repr

/-- `Buffer.readUInt32LE(offset)`: 4-byte little-endian read (missing bytes
read as 0; the source always guards the length first). -/
def readUInt32LE (data : List Nat) (offset : Nat) : Nat :=
  data.getD offset 0 +
  256 * data.getD (offset + 1) 0 +
  256 ^ 2 * data.getD (offset + 2) 0 +
  256 ^ 3 * data.getD (offset + 3) 0

/-- `Buffer.readBigUInt64LE(offset)`: 8-byte little-endian read. -/
def readBigUInt64LE (data : List Nat) (offset : Nat) : Nat :=
  data.getD offset 0 +
  256 * data.getD (offset + 1) 0 +
  256 ^ 2 * data.getD (offset + 2) 0 +
  256 ^ 3 * data.getD (offset + 3) 0 +
  256 ^ 4 * data.getD (offset + 4) 0 +
  256 ^ 5 * data.getD (offset + 5) 0 +
  256 ^ 6 * data.getD (offset + 6) 0 +
  256 ^ 7 * data.getD (offset + 7) 0

/-- `extractSpendFromLegacyInstruction` (`simulator.ts` lines 181-197):
recognizes a native transfer (system program, payload of at least 12
bytes, 4-byte LE tag 2 at offset 0) and returns its 8-byte LE amount at
offset 4; everything else contributes 0.
`extractSpendFromCompiledInstruction` (lines 199-218) is the identical
logic after resolving the program id through the account-key table. -/
def extractSpendFromLegacyInstruction (ix : TransactionInstruction) : Nat :=
  if ix.programId = SYSTEM_PROGRAM_ID then
    if ix.data.length ≥ 12 then
      if readUInt32LE ix.data 0 = 2 then
        readBigUInt64LE ix.data 4
      else 0
    else 0
  else 0

/-- The record `estimateSpend` resolves with (`simulator.ts` line 162). -/
structure SpendEstimate where
  estimatedSpend : Nat
  fee : Nat
  warnings : List String
deriving DecidableEq, Repr

/-- The warning `estimateSpend` pushes when no transfer was recognized. -/
def NO_TRANSFER_WARNING : String :=
  "Could not detect explicit SOL transfers - spend may be higher"

/-- `TransactionSimulator.estimateSpend` (`simulator.ts` lines 123-167),
normal path: the network fee `fee` (RPC result, or the 5000-lamport
default) is the input; the estimate accumulates each instruction's
recognized transfer amount on top of it, and the incompleteness warning is
attached exactly when the total still equals the fee. -/
def estimateSpend (fee : Nat) (instructions : List TransactionInstruction) :
    SpendEstimate :=
  let estimatedSpend :=
    instructions.foldl (fun acc ix => acc + extractSpendFromLegacyInstruction ix) fee
  { estimatedSpend := estimatedSpend, fee := fee,
    warnings := if estimatedSpend = fee then [NO_TRANSFER_WARNING] else [] }

/-- The per-instruction recognized transfer amount as the spec words it
(§4.3/§4.4, claim C7): the 8-byte little-endian amount at offset 4 for an
instruction whose program is the native system program, whose data is at
least 12 bytes, and whose 4-byte little-endian tag equals the transfer
tag 2; zero for every instruction not matching this exact shape. -/
def specTransferAmount (ix : TransactionInstruction) : Nat :=
  if ix.programId = SYSTEM_PROGRAM_ID ∧ 12 ≤ ix.data.length ∧
      readUInt32LE ix.data 0 = 2 then
    readBigUInt64LE ix.data 4
  else 0

/-- The spend estimate as the spec words it (claim C7): base fee plus the
sum of the recognized transfer amounts, with the incompleteness warning
attached iff the estimate equals the base fee. -/
def estimateSpendSpec (fee : Nat) (instructions : List TransactionInstruction) :
    SpendEstimate :=
  let estimatedSpend := fee + (instructions.map specTransferAmount).sum
  { estimatedSpend := estimatedSpend, fee := fee,
    warnings := if estimatedSpend = fee then [NO_TRANSFER_WARNING] else [] }

/-- `SimulationResult` from `src/firewall/simulator.ts`; in the firewall
model it is the value the RPC dry-run would resolve with. -/
structure SimulationResult where
  success : Bool
  error : Option String
  logs : List String
  unitsConsumed : Option Nat
  warnings : List String
deriving DecidableEq, Repr

/-- The three stages of one `TransactionFirewall.check` call, in source
order (`index.ts`: Step 1 programs, Step 2 spending, Step 3 simulation). -/
inductive Stage where
  | programs
  | spend
  | simulation
deriving DecidableEq, Repr

/-- `FirewallResult` from `src/firewall/index.ts`; `Option` models the
optional (`?:`) fields, in particular `warnings` which the success path
sets to `undefined` when empty. -/
structure FirewallResult where
  allowed : Bool
  reason : Option Reason
  warnings : Option (List String)
  simulationResult : Option SimulationResult
  programsChecked : Option (List ProgramCheckResult)
  estimatedSpend : Option Nat
deriving DecidableEq, Repr

/-- The state of a `TransactionFirewall` instance (`index.ts` lines 50-77). -/
structure TransactionFirewall where
  limits : SpendingLimits
  allowlist : ProgramAllowlist
  requireSimulation : Bool
  payerPublicKey : Option String
deriving DecidableEq, Repr

/-- The warning pushed when no payer public key is configured. -/
def NO_PAYER_WARNING : String :=
  "No payer public key provided - spending limits not enforced"

/-- `TransactionFirewall.check` (`index.ts` lines 82-149).  The
tx-dependent inputs are made explicit: `programIds` is what
`simulator.extractProgramIds(tx)` returns, `spendEstimate` what
`simulator.estimateSpend(tx, payer)` would resolve with, and `simResult`
what `simulate(tx)` would resolve with.  Besides the `FirewallResult` the
model returns the spend-ledger state after the call and the trace of
stages whose check actually executed, in execution order. -/
def TransactionFirewall.check (fw : TransactionFirewall) (today : String)
    (programIds : List String) (spendEstimate : SpendEstimate)
    (simResult : SimulationResult) :
    FirewallResult × SpendingLimits × List Stage :=
  let programChecks := fw.allowlist.checkAll programIds
  match programChecks.find? (fun p => !p.allowed) with
  | some blockedProgram =>
    ({ allowed := false, reason := blockedProgram.reason,
       warnings := some [], simulationResult := none,
       programsChecked := some programChecks, estimatedSpend := none },
     fw.limits, [Stage.programs])
  | none =>
    -- Step 3 (shared tail of the two Step-2 branches)
    let step3 := fun (warnings : List String) (estimatedSpend : Option Nat)
        (limits : SpendingLimits) (stagesSoFar : List Stage) =>
      if fw.requireSimulation then
        if !simResult.success then
          ({ allowed := false,
             reason := some (.simulationFailed simResult.error),
             warnings := some (warnings ++ simResult.warnings),
             simulationResult := some simResult,
             programsChecked := some programChecks,
             estimatedSpend := estimatedSpend },
           limits, stagesSoFar ++ [Stage.simulation])
        else
          let warnings := warnings ++ simResult.warnings
          ({ allowed := true, reason := none,
             warnings := if warnings.length > 0 then some warnings else none,
             simulationResult := some simResult,
             programsChecked := some programChecks,
             estimatedSpend := estimatedSpend },
           limits, stagesSoFar ++ [Stage.simulation])
      else
        ({ allowed := true, reason := none,
           warnings := if warnings.length > 0 then some warnings else none,
           simulationResult := none,
           programsChecked := some programChecks,
           estimatedSpend := estimatedSpend },
         limits, stagesSoFar)
    match fw.payerPublicKey with
    | some _ =>
      let estimatedSpend := spendEstimate.estimatedSpend
      let warnings := spendEstimate.warnings
      let limitCheck := fw.limits.check today estimatedSpend
      if !(limitCheck.1.allowed) then
        ({ allowed := false, reason := limitCheck.1.reason,
           warnings := some warnings, simulationResult := none,
           programsChecked := some programChecks,
           estimatedSpend := some estimatedSpend },
         limitCheck.2, [Stage.programs, Stage.spend])
      else
        step3 warnings (some estimatedSpend) limitCheck.2
          [Stage.programs, Stage.spend]
    | none =>
      step3 [NO_PAYER_WARNING] none fw.limits [Stage.programs]

/-- `OnchainSecurityEvent` from `src/audit/onchain.ts` (public identities
are strings; the 32-byte `actionHash` is a byte list; the spec calls this
field `contentHash`). -/
structure OnchainSecurityEvent where
  authority : String
  eventType : Nat
  actionHash : List Nat
  allowed : Bool
  timestamp : Int
  eventIndex : Nat
  detailsLen : Nat
  bump : Nat
deriving DecidableEq, Repr

/-- `OnchainAuditAuthority` from `src/audit/onchain.ts`. -/
structure OnchainAuditAuthority where
  authority : String
  eventCount : Nat
  createdAt : Int
  bump : Nat
deriving DecidableEq, Repr

/-- `OnchainAuditLogger.verifyEventDetails` (`onchain.ts` lines 356-359):
recompute the digest of `details` and compare it byte-for-byte
(`Buffer.equals`) against the event's stored hash.  The SHA-256 digest
itself is Node's `createHash('sha256')`, an external library primitive,
so it enters the model as the function parameter `sha256`; the
comparison logic is the source's.  The function is total (it always
returns a `Bool`), which embeds "never throws". -/
def OnchainAuditLogger.verifyEventDetails (sha256 : String → List Nat)
    (event : OnchainSecurityEvent) (details : String) : Bool :=
  let hash := sha256 details
  hash == event.actionHash

/-- The body of the fetch loop in `OnchainAuditLogger.getEvents`
(`onchain.ts` lines 304-307):
`for (let i = eventCount - 1; i >= Math.max(0, eventCount - count); i--)`
probes `getEvent(i)` and keeps the hits.  The loop executes exactly
`count` iterations (its lower bound is `eventCount - count`, and
`count ≤ eventCount` at every call site), so it is compiled structurally
on the iteration count `n`, starting at index `i` and stepping down. -/
def getEventsCollect (store : Nat → Option OnchainSecurityEvent) :
    Nat → Nat → List OnchainSecurityEvent
  | _, 0 => []
  | i, n + 1 =>
    (match store i with
     | some e => [e]
     | none => []) ++ getEventsCollect store (i - 1) n

/-- `OnchainAuditLogger.getEvents` (`onchain.ts` lines 296-310).  The
tx-independent RPC surface is explicit: `authority` is what
`getAuthority()` resolves with and `store i` what `getEvent(i)` resolves
with.  `limit ? Math.min(limit, authority.eventCount) :
authority.eventCount` is JavaScript truthiness: an omitted *or zero*
limit selects `eventCount`. -/
def OnchainAuditLogger.getEvents (authority : Option OnchainAuditAuthority)
    (store : Nat → Option OnchainSecurityEvent) (limit : Option Nat) :
    List OnchainSecurityEvent :=
  match authority with
  | none => []
  | some a =>
    let count :=
      match limit with
      | some l => if l = 0 then a.eventCount else min l a.eventCount
      | none => a.eventCount
    getEventsCollect store (a.eventCount - 1) count

/-- The probe count as claim C10 words it: `min(limit, eventCount)`, or
`eventCount` when no limit is given. -/
def claimedCount (a : OnchainAuditAuthority) (limit : Option Nat) : Nat :=
  match limit with
  | some l => min l a.eventCount
  | none => a.eventCount

/-- The probed indices as claim C10 words them: from `eventCount - 1` down
to `eventCount - count`, inclusive. -/
def descIndices (eventCount count : Nat) : List Nat :=
  (List.range count).map (fun k => eventCount - 1 - k)

/-! ## Concrete demo inputs (used by witnesses) -/

/-- A successful, warning-free simulation outcome. -/
def demoSim : SimulationResult :=
  { success := true, error := none, logs := [], unitsConsumed := none,
    warnings := [] }

/-- A 100-lamport spend estimate over a 5-lamport fee. -/
def demoEst : SpendEstimate :=
  { estimatedSpend := 100, fee := 5, warnings := ["w1"] }

/-- A firewall whose registry blocks `badprog`. -/
def fwDemoBlocked : TransactionFirewall :=
  { limits := { dailySpend := 0, lastResetDate := "2026-02-03",
                maxDaily := 10000, maxPerTx := 1000 },
    allowlist := { allowlist := none, blocklist := ["badprog"],
                   systemPrograms := [], allowSystemPrograms := true },
    requireSimulation := true, payerPublicKey := some "payer" }

/-- The registry verdict `fwDemoBlocked` produces for `BadProg`. -/
def demoBlockedCheck : ProgramCheckResult :=
  { allowed := false, reason := some (Reason.programBlocked "BadProg"),
    programId := "BadProg", status := ProgramStatus.blocked }

/-- A firewall with an empty registry and a 50-lamport per-tx cap. -/
def fwDemoSpend : TransactionFirewall :=
  { limits := { dailySpend := 0, lastResetDate := "2026-02-03",
                maxDaily := 10000, maxPerTx := 50 },
    allowlist := { allowlist := none, blocklist := [],
                   systemPrograms := [], allowSystemPrograms := true },
    requireSimulation := true, payerPublicKey := some "payer" }

/-- A demo audit authority with three logged events. -/
def demoAuthority : OnchainAuditAuthority :=
  { authority := "w", eventCount := 3, createdAt := 0, bump := 0 }

/-- A demo security event with the given sequence index. -/
def demoEvent (i : Nat) : OnchainSecurityEvent :=
  { authority := "w", eventType := 0, actionHash := [], allowed := true,
    timestamp := 0, eventIndex := i, detailsLen := 0, bump := 0 }

/-- A demo event store holding events 0 and 2; event 1 has been closed. -/
def demoStore : Nat → Option OnchainSecurityEvent := fun i =>
  if i = 1 then none
  else if i ≤ 2 then some (demoEvent i)
  else none

/-! ## Helper lemmas -/

theorem SpendingLimits.maybeResetDaily_maxDaily (s : SpendingLimits) (today : String) :
    (s.maybeResetDaily today).maxDaily = s.maxDaily := by
  unfold SpendingLimits.maybeResetDaily
  split <;> rfl

theorem SpendingLimits.maybeResetDaily_maxPerTx (s : SpendingLimits) (today : String) :
    (s.maybeResetDaily today).maxPerTx = s.maxPerTx := by
  unfold SpendingLimits.maybeResetDaily
  split <;> rfl

theorem SpendingLimits.maybeResetDaily_self (s : SpendingLimits) (today : String)
    (h : today = s.lastResetDate) : s.maybeResetDaily today = s := by
  unfold SpendingLimits.maybeResetDaily
  simp [h]

theorem SpendingLimits.maybeResetDaily_spend_le (s : SpendingLimits) (today : String)
    (h : s.dailySpend ≤ s.maxDaily) :
    (s.maybeResetDaily today).dailySpend ≤ (s.maybeResetDaily today).maxDaily := by
  unfold SpendingLimits.maybeResetDaily
  split <;> simp [h]

/-- `check` returns, in every branch, exactly the post-rollover state. -/
theorem SpendingLimits.check_snd (s : SpendingLimits) (today : String) (a : Nat) :
    (s.check today a).2 = s.maybeResetDaily today := by
  unfold SpendingLimits.check
  by_cases h1 : a > (s.maybeResetDaily today).maxPerTx
  · simp [h1]
  · by_cases h2 : (s.maybeResetDaily today).dailySpend + a > (s.maybeResetDaily today).maxDaily
    · simp [h1, h2]
    · simp [h1, h2]

/-- An approved `check` bounds the projected daily spend. -/
theorem SpendingLimits.check_allowed_bound (s : SpendingLimits) (today : String) (a : Nat)
    (h : (s.check today a).1.allowed = true) :
    (s.maybeResetDaily today).dailySpend + a ≤ (s.maybeResetDaily today).maxDaily := by
  unfold SpendingLimits.check at h
  by_cases h1 : a > (s.maybeResetDaily today).maxPerTx
  · simp [h1] at h
  · by_cases h2 : (s.maybeResetDaily today).dailySpend + a > (s.maybeResetDaily today).maxDaily
    · simp [h1, h2] at h
    · omega

/-! ## Claims -/

/-- Claim C1: for every program id and every registry configuration, if the
(lowercased) id is a member of the constructed blocklist then
`ProgramAllowlist.check` returns `allowed = false` with status `blocked`,
regardless of whether the id is also in the allowlist or the system-safe
set — the blocklist test comes first and overrides every other set. -/
theorem blocklist_overrides_all (config : AllowlistConfig) (id : String)
    (h : (ProgramAllowlist.ofConfig config).blocklist.contains (jsToLower id) = true) :
    (((ProgramAllowlist.ofConfig config).check id).allowed = false) ∧
    (((ProgramAllowlist.ofConfig config).check id).status = ProgramStatus.blocked) := by
  have h' : jsToLower id ∈ (ProgramAllowlist.ofConfig config).blocklist := by
    simpa using h
  unfold ProgramAllowlist.check
  simp [h']

/-- Witness for C1: `BadProg` is configured in both the allowlist and the
blocklist (and system programs are enabled), yet it is denied with status
`blocked`. -/
theorem blocklist_overrides_all_witness :
    ((ProgramAllowlist.ofConfig
        { allowedPrograms := some ["BadProg"], blockedPrograms := some ["BadProg"],
          allowSystemPrograms := some true }).blocklist.contains (jsToLower "BadProg") = true) ∧
    (((ProgramAllowlist.ofConfig
        { allowedPrograms := some ["BadProg"], blockedPrograms := some ["BadProg"],
          allowSystemPrograms := some true }).check "BadProg").allowed = false) ∧
    (((ProgramAllowlist.ofConfig
        { allowedPrograms := some ["BadProg"], blockedPrograms := some ["BadProg"],
          allowSystemPrograms := some true }).check "BadProg").status = ProgramStatus.blocked) :=
  ⟨by decide, blocklist_overrides_all _ "BadProg" (by decide)⟩

/-- Claim C2: for every amount strictly greater than `maxPerTx`,
`SpendingLimits.check` denies with the per-transaction-limit reason,
regardless of the ledger's daily state — the per-transaction comparison is
evaluated before the daily-limit comparison. -/
theorem spend_check_perTx_denies (s : SpendingLimits) (today : String) (amount : Nat)
    (h : amount > s.maxPerTx) :
    ((s.check today amount).1.allowed = false) ∧
    ((s.check today amount).1.reason = some (Reason.perTxExceeded amount s.maxPerTx)) := by
  have hm : (s.maybeResetDaily today).maxPerTx = s.maxPerTx :=
    s.maybeResetDaily_maxPerTx today
  unfold SpendingLimits.check
  simp [hm, h]

/-- Witness for C2: a 600-lamport transaction against a 500-lamport per-tx
cap is denied with the per-tx reason even though the full 10000-lamport
daily budget remains. -/
theorem spend_check_perTx_denies_witness :
    (600 > (({ dailySpend := 0, lastResetDate := "2026-02-03", maxDaily := 10000,
               maxPerTx := 500 } : SpendingLimits)).maxPerTx) ∧
    ((({ dailySpend := 0, lastResetDate := "2026-02-03", maxDaily := 10000,
         maxPerTx := 500 } : SpendingLimits).check "2026-02-03" 600).1.allowed = false) ∧
    ((({ dailySpend := 0, lastResetDate := "2026-02-03", maxDaily := 10000,
         maxPerTx := 500 } : SpendingLimits).check "2026-02-03" 600).1.reason =
      some (Reason.perTxExceeded 600 500)) :=
  ⟨by decide, spend_check_perTx_denies _ "2026-02-03" 600 (by decide)⟩

/-- Counterexample to claim C3 as stated, on the spec's concrete scenario
(`maxPerTx = 100_000_000`, `maxDaily = 1_000_000_000`, fresh ledger, one
calendar day).  Two of its assertions fail on the code: (1)
`check(50_000_000)` returns `remainingDaily = 950_000_000` (`maxDaily`
minus the *projected* spend, `limits.ts` line 269), not `1_000_000_000`;
(2) after `recordSpend(50_000_000)`, `check(950_000_001)` is denied by
the *per-transaction* comparison (950_000_001 > 100_000_000), which is
evaluated first, so the reason is the per-tx one, not a daily-limit
reason citing `1,000,000,001 > 1,000,000,000`. -/
theorem spend_scenario_counterexample :
    ((({ dailySpend := 0, lastResetDate := "2026-02-03", maxDaily := 1000000000,
         maxPerTx := 100000000 } : SpendingLimits).check
        "2026-02-03" 50000000).1.remainingDaily = 950000000) ∧
    ¬ ((({ dailySpend := 0, lastResetDate := "2026-02-03", maxDaily := 1000000000,
           maxPerTx := 100000000 } : SpendingLimits).check
          "2026-02-03" 50000000).1.remainingDaily = 1000000000) ∧
    ((({ dailySpend := 50000000, lastResetDate := "2026-02-03",
         maxDaily := 1000000000, maxPerTx := 100000000 } : SpendingLimits).check
        "2026-02-03" 950000001).1.reason =
      some (Reason.perTxExceeded 950000001 100000000)) ∧
    ¬ ((({ dailySpend := 50000000, lastResetDate := "2026-02-03",
           maxDaily := 1000000000, maxPerTx := 100000000 } : SpendingLimits).check
          "2026-02-03" 950000001).1.reason =
        some (Reason.dailyExceeded 50000000 950000001 1000000000)) := by
  decide

/-- Claim C3 as amended, which is what the code does on the spec's
scenario: `check(50_000_000)` is allowed with
`remainingDaily = 950_000_000` (`maxDaily` minus the projected spend);
after `recordSpend(50_000_000)`, `check(950_000_001)` is denied — but by
the per-transaction limit (950_000_001 > 100_000_000), which fires before
the daily comparison, even though the projected daily total
`50_000_000 + 950_000_001 = 1_000_000_001` would also exceed
`1_000_000_000`; a daily-limit denial citing
`Current + Tx > 1_000_000_000` does occur for an amount within the per-tx
cap, e.g. `check(100_000_000)` once `dailySpend = 950_000_000`; and
`check(150_000_000)` is denied for the per-transaction limit even though
the remaining daily budget (950_000_000) suffices. -/
theorem spend_scenario :
    ((SpendingLimits.check
        { dailySpend := 0, lastResetDate := "2026-02-03", maxDaily := 1000000000,
          maxPerTx := 100000000 } "2026-02-03" 50000000).1.allowed = true ∧
     (SpendingLimits.check
        { dailySpend := 0, lastResetDate := "2026-02-03", maxDaily := 1000000000,
          maxPerTx := 100000000 } "2026-02-03" 50000000).1.remainingDaily =
       950000000) ∧
    ((SpendingLimits.recordSpend
        { dailySpend := 0, lastResetDate := "2026-02-03", maxDaily := 1000000000,
          maxPerTx := 100000000 } "2026-02-03" 50000000).dailySpend = 50000000) ∧
    ((SpendingLimits.check
        (SpendingLimits.recordSpend
          { dailySpend := 0, lastResetDate := "2026-02-03", maxDaily := 1000000000,
            maxPerTx := 100000000 } "2026-02-03" 50000000)
        "2026-02-03" 950000001).1.allowed = false ∧
     (SpendingLimits.check
        (SpendingLimits.recordSpend
          { dailySpend := 0, lastResetDate := "2026-02-03", maxDaily := 1000000000,
            maxPerTx := 100000000 } "2026-02-03" 50000000)
        "2026-02-03" 950000001).1.reason =
       some (Reason.perTxExceeded 950000001 100000000) ∧
     50000000 + 950000001 = 1000000001 ∧ 1000000001 > 1000000000) ∧
    ((SpendingLimits.check
        (SpendingLimits.recordSpend
          { dailySpend := 0, lastResetDate := "2026-02-03", maxDaily := 1000000000,
            maxPerTx := 100000000 } "2026-02-03" 50000000)
        "2026-02-03" 150000000).1.allowed = false ∧
     (SpendingLimits.check
        (SpendingLimits.recordSpend
          { dailySpend := 0, lastResetDate := "2026-02-03", maxDaily := 1000000000,
            maxPerTx := 100000000 } "2026-02-03" 50000000)
        "2026-02-03" 150000000).1.reason =
       some (Reason.perTxExceeded 150000000 100000000) ∧
     150000000 ≤ 1000000000 -
       (SpendingLimits.recordSpend
         { dailySpend := 0, lastResetDate := "2026-02-03", maxDaily := 1000000000,
           maxPerTx := 100000000 } "2026-02-03" 50000000).dailySpend) ∧
    ((SpendingLimits.check
        { dailySpend := 950000000, lastResetDate := "2026-02-03",
          maxDaily := 1000000000, maxPerTx := 100000000 }
        "2026-02-03" 100000000).1.allowed = false ∧
     (SpendingLimits.check
        { dailySpend := 950000000, lastResetDate := "2026-02-03",
          maxDaily := 1000000000, maxPerTx := 100000000 }
        "2026-02-03" 100000000).1.reason =
       some (Reason.dailyExceeded 950000000 100000000 1000000000) ∧
     950000000 + 100000000 > 1000000000) := by
  decide

/-- Counterexample to claim C4 as stated: not *every* sequential sequence
of operations preserves `dailySpend ≤ maxDaily` — `recordSpend` adds
unconditionally (`limits.ts` line 278), so a single unguarded
`recordSpend(2_000_000_000)` against `maxDaily = 1_000_000_000` leaves
`dailySpend > maxDaily` at rest. -/
theorem spend_invariant_counterexample :
    ¬ ((({ dailySpend := 0, lastResetDate := "2026-02-03", maxDaily := 1000000000,
           maxPerTx := 100000000 } : SpendingLimits).applyOps
          [SpendOp.recordSpend "2026-02-03" 2000000000]).dailySpend ≤
        ({ dailySpend := 0, lastResetDate := "2026-02-03", maxDaily := 1000000000,
           maxPerTx := 100000000 } : SpendingLimits).maxDaily) := by
  decide

/-- Claim C4 as amended: for every sequence of `check`, `recordSpend` and
`resetDailySpend` operations performed sequentially, *in which every
`recordSpend` records an amount that `check` approves in the state and on
the date at which it executes* (the calling discipline the source
documents), the invariant `0 ≤ dailySpend ≤ maxDaily` holds at rest after
the sequence completes — hence, since every prefix of such a sequence is
itself such a sequence, after each operation. -/
theorem spend_invariant_guarded (s : SpendingLimits) (ops : List SpendOp)
    (hinv : s.dailySpend ≤ s.maxDaily)
    (hg : s.guardedOps ops = true) :
    0 ≤ (s.applyOps ops).dailySpend ∧
      (s.applyOps ops).dailySpend ≤ (s.applyOps ops).maxDaily := by
  refine ⟨Nat.zero_le _, ?_⟩
  induction ops generalizing s with
  | nil => simpa [SpendingLimits.applyOps] using hinv
  | cons op rest ih =>
    simp only [SpendingLimits.guardedOps, Bool.and_eq_true] at hg
    obtain ⟨hop, hrest⟩ := hg
    have hstep : (s.applyOp op).dailySpend ≤ (s.applyOp op).maxDaily := by
      cases op with
      | check today amount =>
        rw [SpendingLimits.applyOp, SpendingLimits.check_snd]
        exact s.maybeResetDaily_spend_le today hinv
      | recordSpend today amount =>
        have hb := SpendingLimits.check_allowed_bound s today amount hop
        simp only [SpendingLimits.applyOp, SpendingLimits.recordSpend]
        exact hb
      | resetDailySpend today =>
        simp [SpendingLimits.applyOp, SpendingLimits.resetDailySpend]
    have hfold : s.applyOps (op :: rest) = (s.applyOp op).applyOps rest := by
      simp [SpendingLimits.applyOps]
    rw [hfold]
    exact ih (s.applyOp op) hstep hrest

/-- Witness for C4: a guarded sequence — two approved records, a manual
reset, then another approved record — keeps `dailySpend` within
`maxDaily`. -/
theorem spend_invariant_guarded_witness :
    (({ dailySpend := 0, lastResetDate := "2026-02-03", maxDaily := 1000,
        maxPerTx := 500 } : SpendingLimits).dailySpend ≤
      ({ dailySpend := 0, lastResetDate := "2026-02-03", maxDaily := 1000,
         maxPerTx := 500 } : SpendingLimits).maxDaily) ∧
    (({ dailySpend := 0, lastResetDate := "2026-02-03", maxDaily := 1000,
        maxPerTx := 500 } : SpendingLimits).guardedOps
        [SpendOp.check "2026-02-03" 400, SpendOp.recordSpend "2026-02-03" 400,
         SpendOp.recordSpend "2026-02-03" 300, SpendOp.resetDailySpend "2026-02-04",
         SpendOp.recordSpend "2026-02-04" 500] = true) ∧
    (0 ≤ (({ dailySpend := 0, lastResetDate := "2026-02-03", maxDaily := 1000,
             maxPerTx := 500 } : SpendingLimits).applyOps
            [SpendOp.check "2026-02-03" 400, SpendOp.recordSpend "2026-02-03" 400,
             SpendOp.recordSpend "2026-02-03" 300, SpendOp.resetDailySpend "2026-02-04",
             SpendOp.recordSpend "2026-02-04" 500]).dailySpend ∧
      (({ dailySpend := 0, lastResetDate := "2026-02-03", maxDaily := 1000,
          maxPerTx := 500 } : SpendingLimits).applyOps
            [SpendOp.check "2026-02-03" 400, SpendOp.recordSpend "2026-02-03" 400,
             SpendOp.recordSpend "2026-02-03" 300, SpendOp.resetDailySpend "2026-02-04",
             SpendOp.recordSpend "2026-02-04" 500]).dailySpend ≤
        (({ dailySpend := 0, lastResetDate := "2026-02-03", maxDaily := 1000,
            maxPerTx := 500 } : SpendingLimits).applyOps
            [SpendOp.check "2026-02-03" 400, SpendOp.recordSpend "2026-02-03" 400,
             SpendOp.recordSpend "2026-02-03" 300, SpendOp.resetDailySpend "2026-02-04",
             SpendOp.recordSpend "2026-02-04" 500]).maxDaily) :=
  ⟨by decide, by decide,
   spend_invariant_guarded _ _ (by decide) (by decide)⟩

/-- Counterexample to claim C5 as stated: `check` is *not* read-only for
every starting state — when the stored `lastResetDate` differs from the
current date, the lazy rollover inside `check` resets `dailySpend` to 0
in place (here from 5 to 0). -/
theorem spend_check_mutates_on_rollover :
    ((({ dailySpend := 5, lastResetDate := "2026-02-03", maxDaily := 1000,
         maxPerTx := 1000 } : SpendingLimits).check "2026-02-04" 1).2.dailySpend ≠
      ({ dailySpend := 5, lastResetDate := "2026-02-03", maxDaily := 1000,
         maxPerTx := 1000 } : SpendingLimits).dailySpend) := by
  decide

/-- Claim C5 as amended: `SpendingLimits.check` performs no mutation beyond
the lazy day rollover — the state after `check` is exactly
`maybeResetDaily` of the starting state (so `maxDaily` and `maxPerTx` are
always unchanged), and whenever the stored `lastResetDate` equals the
current date the whole ledger state is unchanged. -/
theorem spend_check_readonly (s : SpendingLimits) (today : String) (a : Nat) :
    ((s.check today a).2 = s.maybeResetDaily today) ∧
    ((s.check today a).2.maxDaily = s.maxDaily) ∧
    ((s.check today a).2.maxPerTx = s.maxPerTx) ∧
    (today = s.lastResetDate → (s.check today a).2 = s) := by
  refine ⟨s.check_snd today a, ?_, ?_, ?_⟩
  · rw [s.check_snd today a]
    exact s.maybeResetDaily_maxDaily today
  · rw [s.check_snd today a]
    exact s.maybeResetDaily_maxPerTx today
  · intro h
    rw [s.check_snd today a]
    exact s.maybeResetDaily_self today h

/-- Witness for C5: on a same-day call the ledger state is returned
unchanged. -/
theorem spend_check_readonly_witness :
    ("2026-02-03" = ({ dailySpend := 7, lastResetDate := "2026-02-03",
                       maxDaily := 100, maxPerTx := 10 } : SpendingLimits).lastResetDate) ∧
    ((({ dailySpend := 7, lastResetDate := "2026-02-03", maxDaily := 100,
         maxPerTx := 10 } : SpendingLimits).check "2026-02-03" 3).2 =
      ({ dailySpend := 7, lastResetDate := "2026-02-03", maxDaily := 100,
         maxPerTx := 10 } : SpendingLimits)) :=
  ⟨by decide,
   (spend_check_readonly _ "2026-02-03" 3).2.2.2 (by decide)⟩

/-- Accumulating the per-instruction extraction over a fold equals the
base value plus the summed per-instruction amounts. -/
theorem estimateSpend_foldl_eq (fee : Nat) (l : List TransactionInstruction) :
    l.foldl (fun acc ix => acc + extractSpendFromLegacyInstruction ix) fee =
      fee + (l.map extractSpendFromLegacyInstruction).sum := by
  induction l generalizing fee with
  | nil => simp
  | cons ix rest ih =>
    simp only [List.foldl_cons, List.map_cons, List.sum_cons, ih]
    omega

/-- The source's nested-guard extraction agrees, instruction by
instruction, with the claim's one-shot shape condition. -/
theorem extractSpend_eq_specTransferAmount (ix : TransactionInstruction) :
    extractSpendFromLegacyInstruction ix = specTransferAmount ix := by
  unfold extractSpendFromLegacyInstruction specTransferAmount
  by_cases h1 : ix.programId = SYSTEM_PROGRAM_ID <;>
    by_cases h2 : 12 ≤ ix.data.length <;>
      by_cases h3 : readUInt32LE ix.data 0 = 2 <;>
        simp [h1, h2, h3, ge_iff_le]

/-- Claim C7: `estimateSpend` computes exactly the spec's estimate — the
base network fee plus the sum, over the transaction's instructions, of
the 8-byte little-endian amount at offset 4 of each instruction targeting
the native system program with at least 12 bytes of data and 4-byte
little-endian tag 2; every other instruction contributes zero; and the
incompleteness warning is attached precisely when the estimate equals the
base fee. -/
theorem estimateSpend_eq_spec (fee : Nat)
    (instructions : List TransactionInstruction) :
    estimateSpend fee instructions = estimateSpendSpec fee instructions := by
  unfold estimateSpend estimateSpendSpec
  have hmap : instructions.map extractSpendFromLegacyInstruction =
      instructions.map specTransferAmount := by
    simp only [List.map_inj_left]
    intro ix _
    exact extractSpend_eq_specTransferAmount ix
  simp only [estimateSpend_foldl_eq, hmap]

/-- Claim C8: `verifyEventDetails` returns `true` exactly when the digest
of `details` equals the event's stored 32-byte hash (`actionHash` in the
code; the spec calls it `contentHash`) byte for byte; the function is
total — it always returns a boolean and never throws. -/
theorem verifyEventDetails_iff (sha256 : String → List Nat)
    (event : OnchainSecurityEvent) (details : String) :
    OnchainAuditLogger.verifyEventDetails sha256 event details = true ↔
      sha256 details = event.actionHash := by
  unfold OnchainAuditLogger.verifyEventDetails
  simp

/-- Claim C6: in every `TransactionFirewall.check` call the stages run in
the fixed order programs → spend → simulation.
Part 1: whenever some program check fails (the scan finds `bp`), the call
returns immediately — `allowed = false` with that check's reason, the
already-collected `programsChecked` attached, and a result that does not
depend on the spend estimate or simulation inputs at all (the equation's
right-hand side mentions neither), with trace `[programs]`.
Part 2: whenever all programs pass, a payer is configured and the spend
check fails, the call returns `allowed = false` with the spend reason,
`programsChecked` and `estimatedSpend` attached, independent of the
simulation input, with trace `[programs, spend]`.
Part 3: the executed-stage trace of every call is a subsequence of
`[programs, spend, simulation]` (the fixed order) and always starts by
running the programs stage. -/
theorem firewall_stage_order :
    (∀ (fw : TransactionFirewall) (today : String) (ids : List String)
       (est : SpendEstimate) (sim : SimulationResult) (bp : ProgramCheckResult),
       (fw.allowlist.checkAll ids).find? (fun p => !p.allowed) = some bp →
       fw.check today ids est sim =
         ({ allowed := false, reason := bp.reason, warnings := some [],
            simulationResult := none,
            programsChecked := some (fw.allowlist.checkAll ids),
            estimatedSpend := none },
          fw.limits, [Stage.programs])) ∧
    (∀ (fw : TransactionFirewall) (today : String) (ids : List String)
       (est : SpendEstimate) (sim : SimulationResult) (pk : String),
       (fw.allowlist.checkAll ids).find? (fun p => !p.allowed) = none →
       fw.payerPublicKey = some pk →
       (fw.limits.check today est.estimatedSpend).1.allowed = false →
       fw.check today ids est sim =
         ({ allowed := false,
            reason := (fw.limits.check today est.estimatedSpend).1.reason,
            warnings := some est.warnings, simulationResult := none,
            programsChecked := some (fw.allowlist.checkAll ids),
            estimatedSpend := some est.estimatedSpend },
          (fw.limits.check today est.estimatedSpend).2,
          [Stage.programs, Stage.spend])) ∧
    (∀ (fw : TransactionFirewall) (today : String) (ids : List String)
       (est : SpendEstimate) (sim : SimulationResult),
       (fw.check today ids est sim).2.2.Sublist
         [Stage.programs, Stage.spend, Stage.simulation] ∧
       Stage.programs ∈ (fw.check today ids est sim).2.2) := by
  refine ⟨?_, ?_, ?_⟩
  · intro fw today ids est sim bp hfind
    simp only [TransactionFirewall.check]
    rw [hfind]
  · intro fw today ids est sim pk hfind hpayer hdenied
    simp only [TransactionFirewall.check]
    rw [hfind, hpayer]
    simp [hdenied]
  · intro fw today ids est sim
    simp only [TransactionFirewall.check]
    cases hfind : (fw.allowlist.checkAll ids).find? (fun p => !p.allowed) with
    | some bp =>
      dsimp only
      exact ⟨by decide, by decide⟩
    | none =>
      cases hpayer : fw.payerPublicKey with
      | none =>
        dsimp only
        by_cases hreq : fw.requireSimulation
        · by_cases hsucc : sim.success <;>
            simp only [hreq, hsucc, Bool.not_true, Bool.not_false, if_true,
              if_false, Bool.false_eq_true, ite_true, ite_false] <;>
            exact ⟨by decide, by decide⟩
        · simp only [hreq, Bool.false_eq_true, if_false, ite_false]
          exact ⟨by decide, by decide⟩
      | some pk =>
        dsimp only
        by_cases hall : (fw.limits.check today est.estimatedSpend).1.allowed
        · by_cases hreq : fw.requireSimulation
          · by_cases hsucc : sim.success <;>
              simp only [hall, hreq, hsucc, Bool.not_true, Bool.not_false,
                Bool.false_eq_true, if_true, if_false, ite_true, ite_false] <;>
              exact ⟨by decide, by decide⟩
          · simp only [hall, hreq, Bool.not_true, Bool.false_eq_true, if_false,
              ite_false]
            exact ⟨by decide, by decide⟩
        · simp only [Bool.not_eq_true] at hall
          simp only [hall, Bool.not_false, if_true, ite_true]
          exact ⟨by decide, by decide⟩

/-- Witness for C6: on `fwDemoBlocked` the blocked `BadProg` short-circuits
at the programs stage (trace `[programs]`, spend and simulation inputs
ignored); on `fwDemoSpend` the 100-lamport estimate violates the
50-lamport per-tx cap and short-circuits at the spend stage (trace
`[programs, spend]`, simulation input ignored). -/
theorem firewall_stage_order_witness :
    ((fwDemoBlocked.allowlist.checkAll ["BadProg"]).find? (fun p => !p.allowed) =
      some demoBlockedCheck) ∧
    (fwDemoBlocked.check "2026-02-03" ["BadProg"] demoEst demoSim =
      ({ allowed := false, reason := demoBlockedCheck.reason, warnings := some [],
         simulationResult := none,
         programsChecked := some (fwDemoBlocked.allowlist.checkAll ["BadProg"]),
         estimatedSpend := none },
       fwDemoBlocked.limits, [Stage.programs])) ∧
    ((fwDemoSpend.allowlist.checkAll ["GoodProg"]).find? (fun p => !p.allowed) =
      none) ∧
    (fwDemoSpend.payerPublicKey = some "payer") ∧
    ((fwDemoSpend.limits.check "2026-02-03" demoEst.estimatedSpend).1.allowed =
      false) ∧
    (fwDemoSpend.check "2026-02-03" ["GoodProg"] demoEst demoSim =
      ({ allowed := false,
         reason := (fwDemoSpend.limits.check "2026-02-03" demoEst.estimatedSpend).1.reason,
         warnings := some demoEst.warnings, simulationResult := none,
         programsChecked := some (fwDemoSpend.allowlist.checkAll ["GoodProg"]),
         estimatedSpend := some demoEst.estimatedSpend },
       (fwDemoSpend.limits.check "2026-02-03" demoEst.estimatedSpend).2,
       [Stage.programs, Stage.spend])) :=
  ⟨by decide,
   firewall_stage_order.1 fwDemoBlocked "2026-02-03" ["BadProg"] demoEst demoSim
     demoBlockedCheck (by decide),
   by decide, by decide, by decide,
   firewall_stage_order.2.1 fwDemoSpend "2026-02-03" ["GoodProg"] demoEst demoSim
     "payer" (by decide) (by decide) (by decide)⟩

/-- Claim C9: all Program Registry membership tests are case-insensitive.
Part 1: `check` lowercases the queried id before every set lookup, so for
any two ids with the same lowercasing (ids differing only in letter case)
the allowed/status verdict is identical, on every registry state — in
particular on every constructed one.
Part 2: the constructor lowercases every configured allowlist, blocklist
and system-safe id, hence two configurations whose id lists agree up to
letter case (and agree on `allowSystemPrograms`) construct identical
registries.
Part 3: `addToBlocklist` and `addToAllowlist` lowercase their argument
before insertion, so case-variant arguments produce identical registry
states. -/
theorem registry_case_insensitive :
    (∀ (r : ProgramAllowlist) (id1 id2 : String),
       jsToLower id1 = jsToLower id2 →
       ((r.check id1).allowed = (r.check id2).allowed ∧
        (r.check id1).status = (r.check id2).status)) ∧
    (∀ (c1 c2 : AllowlistConfig),
       c1.allowedPrograms.map (fun ps => ps.map jsToLower) =
         c2.allowedPrograms.map (fun ps => ps.map jsToLower) →
       (c1.blockedPrograms.getD []).map jsToLower =
         (c2.blockedPrograms.getD []).map jsToLower →
       c1.allowSystemPrograms = c2.allowSystemPrograms →
       ProgramAllowlist.ofConfig c1 = ProgramAllowlist.ofConfig c2) ∧
    (∀ (r : ProgramAllowlist) (id1 id2 : String),
       jsToLower id1 = jsToLower id2 →
       r.addToBlocklist id1 = r.addToBlocklist id2 ∧
       r.addToAllowlist id1 = r.addToAllowlist id2) := by
  refine ⟨?_, ?_, ?_⟩
  · intro r id1 id2 h
    simp only [ProgramAllowlist.check]
    rw [h]
    by_cases hb : jsToLower id2 ∈ r.blocklist
    · simp [hb]
    · by_cases hs : r.allowSystemPrograms = true ∧ jsToLower id2 ∈ r.systemPrograms
      · simp [hb, hs]
      · cases hal : r.allowlist with
        | none => simp [hb, hs, hal]
        | some al =>
          by_cases hm : jsToLower id2 ∈ al
          · simp [hb, hs, hal, hm]
          · simp [hb, hs, hal, hm]
  · intro c1 c2 hal hbl hsys
    unfold ProgramAllowlist.ofConfig
    simp only [KNOWN_MALICIOUS_PROGRAMS, List.nil_append, ProgramAllowlist.mk.injEq]
    exact ⟨hal, hbl, trivial, by rw [hsys]⟩
  · intro r id1 id2 h
    constructor
    · unfold ProgramAllowlist.addToBlocklist
      rw [h]
    · unfold ProgramAllowlist.addToAllowlist
      rw [h]

/-- Witness for C9: `AbC` and `aBc` lowercase identically; a registry in
allowlist mode gives both the same verdict; case-variant configurations
construct equal registries; case-variant runtime insertions coincide. -/
theorem registry_case_insensitive_witness :
    (jsToLower "AbC" = jsToLower "aBc") ∧
    ((({ allowlist := some ["abc"], blocklist := ["evil"], systemPrograms := [],
         allowSystemPrograms := true } : ProgramAllowlist).check "AbC").allowed =
       (({ allowlist := some ["abc"], blocklist := ["evil"], systemPrograms := [],
           allowSystemPrograms := true } : ProgramAllowlist).check "aBc").allowed ∧
     (({ allowlist := some ["abc"], blocklist := ["evil"], systemPrograms := [],
         allowSystemPrograms := true } : ProgramAllowlist).check "AbC").status =
       (({ allowlist := some ["abc"], blocklist := ["evil"], systemPrograms := [],
           allowSystemPrograms := true } : ProgramAllowlist).check "aBc").status) ∧
    (ProgramAllowlist.ofConfig
        { allowedPrograms := some ["AbC"], blockedPrograms := some ["EVIL"],
          allowSystemPrograms := some true } =
      ProgramAllowlist.ofConfig
        { allowedPrograms := some ["aBC"], blockedPrograms := some ["evil"],
          allowSystemPrograms := some true }) ∧
    (({ allowlist := some ["abc"], blocklist := ["evil"], systemPrograms := [],
        allowSystemPrograms := true } : ProgramAllowlist).addToBlocklist "AbC" =
       ({ allowlist := some ["abc"], blocklist := ["evil"], systemPrograms := [],
          allowSystemPrograms := true } : ProgramAllowlist).addToBlocklist "aBc" ∧
     ({ allowlist := some ["abc"], blocklist := ["evil"], systemPrograms := [],
        allowSystemPrograms := true } : ProgramAllowlist).addToAllowlist "AbC" =
       ({ allowlist := some ["abc"], blocklist := ["evil"], systemPrograms := [],
          allowSystemPrograms := true } : ProgramAllowlist).addToAllowlist "aBc") :=
  ⟨by decide,
   registry_case_insensitive.1 _ "AbC" "aBc" (by decide),
   registry_case_insensitive.2.1 _ _ (by decide) (by decide) (by decide),
   registry_case_insensitive.2.2 _ "AbC" "aBc" (by decide)⟩

/-- Unrolling the fetch loop: collecting `n` probes downward from index `i`
is `filterMap` over the descending index list (as long as the loop cannot
step below zero, i.e. `n ≤ i + 1`). -/
theorem getEventsCollect_eq (store : Nat → Option OnchainSecurityEvent) :
    ∀ (n i : Nat), n ≤ i + 1 →
    getEventsCollect store i n =
      ((List.range n).map (fun k => i - k)).filterMap store := by
  intro n
  induction n with
  | zero =>
    intro i _
    simp [getEventsCollect]
  | succ n ih =>
    intro i h
    have hrec := ih (i - 1) (by omega)
    have hcomp : (List.range n).map (Nat.succ ∘ id) = (List.range n).map Nat.succ := by
      simp
    have hmap : (List.range n).map ((fun k => i - k) ∘ Nat.succ) =
        (List.range n).map (fun k => i - 1 - k) := by
      refine List.map_inj_left.mpr ?_
      intro a _
      simp only [Function.comp]
      omega
    rw [getEventsCollect, List.range_succ_eq_map, List.map_cons, List.map_map,
      List.filterMap_cons, hmap, ← hrec]
    cases hstore : store i with
    | some e => simp [hstore]
    | none => simp [hstore]

/-- The descending probe list is strictly decreasing. -/
theorem descIndices_pairwise (eventCount count : Nat) (h : count ≤ eventCount) :
    (descIndices eventCount count).Pairwise (fun a b => b < a) := by
  unfold descIndices
  rw [List.pairwise_map, List.pairwise_iff_getElem]
  intro i j hi hj hij
  rw [List.length_range] at hi hj
  rw [List.getElem_range, List.getElem_range]
  omega

/-- `demoStore` is well-formed: a stored event's index is its address
index. -/
theorem demoStore_wf : ∀ i e, demoStore i = some e → e.eventIndex = i := by
  intro i e h
  unfold demoStore at h
  split_ifs at h with h1 h2
  · injection h with he
    rw [← he]
    rfl

/-- Counterexample to claim C10 as stated: `getEvents(0)` does *not* return
at most `min(0, eventCount) = 0` events — `limit ? ... : ...` treats the
zero limit as falsy, so the count falls back to `eventCount` and every
index is probed (here returning 1 event against a claimed bound of 0). -/
theorem getEvents_limit_zero_counterexample :
    ¬ ((OnchainAuditLogger.getEvents
          (some { authority := "w", eventCount := 1, createdAt := 0, bump := 0 })
          (fun i =>
            if i = 0 then
              some { authority := "w", eventType := 0, actionHash := [],
                     allowed := true, timestamp := 0, eventIndex := 0,
                     detailsLen := 0, bump := 0 }
            else none)
          (some 0)).length ≤
        claimedCount { authority := "w", eventCount := 1, createdAt := 0, bump := 0 }
          (some 0)) := by
  decide

/-- Claim C10 as amended: `getEvents` returns `[]` when the authority is
uninitialized; for an omitted or *positive* limit it probes exactly the
indices `eventCount - 1` down to `eventCount - min(limit, eventCount)`
(in that descending order), silently omits indices whose event account is
absent (`filterMap`), and returns at most `min(limit, eventCount)` events;
a zero limit is JavaScript-falsy and behaves like an omitted limit (all
`eventCount` indices probed).  Whenever the store is well-formed (a
stored event's `eventIndex` equals its address index), the returned
events are in strictly descending `eventIndex` order, most recent
first. -/
theorem audit_getEvents_spec :
    (∀ (store : Nat → Option OnchainSecurityEvent) (limit : Option Nat),
       OnchainAuditLogger.getEvents none store limit = []) ∧
    (∀ (a : OnchainAuditAuthority) (store : Nat → Option OnchainSecurityEvent)
       (limit : Option Nat),
       (∀ l, limit = some l → 0 < l) →
       OnchainAuditLogger.getEvents (some a) store limit =
         (descIndices a.eventCount (claimedCount a limit)).filterMap store ∧
       (OnchainAuditLogger.getEvents (some a) store limit).length ≤
         claimedCount a limit) ∧
    (∀ (a : OnchainAuditAuthority) (store : Nat → Option OnchainSecurityEvent)
       (limit : Option Nat),
       (∀ i e, store i = some e → e.eventIndex = i) →
       List.Pairwise (fun e1 e2 => e2.eventIndex < e1.eventIndex)
         (OnchainAuditLogger.getEvents (some a) store limit)) := by
  refine ⟨?_, ?_, ?_⟩
  · intro store limit
    rfl
  · intro a store limit hpos
    have key : ∀ c : Nat, c ≤ a.eventCount →
        getEventsCollect store (a.eventCount - 1) c =
          (descIndices a.eventCount c).filterMap store ∧
        (getEventsCollect store (a.eventCount - 1) c).length ≤ c := by
      intro c hc
      have heq : getEventsCollect store (a.eventCount - 1) c =
          (descIndices a.eventCount c).filterMap store := by
        rw [getEventsCollect_eq store _ _ (by omega)]
        rfl
      refine ⟨heq, ?_⟩
      rw [heq]
      calc ((descIndices a.eventCount c).filterMap store).length
          ≤ (descIndices a.eventCount c).length := List.length_filterMap_le _ _
        _ = c := by simp [descIndices]
    cases limit with
    | none =>
      simpa only [OnchainAuditLogger.getEvents, claimedCount] using
        key a.eventCount (Nat.le_refl _)
    | some l =>
      have hne : l ≠ 0 := by
        have := hpos l rfl
        omega
      simpa only [OnchainAuditLogger.getEvents, claimedCount, if_neg hne] using
        key (min l a.eventCount) (Nat.min_le_right _ _)
  · intro a store limit hwf
    have key : ∀ c : Nat, c ≤ a.eventCount →
        List.Pairwise (fun e1 e2 => e2.eventIndex < e1.eventIndex)
          (getEventsCollect store (a.eventCount - 1) c) := by
      intro c hc
      rw [getEventsCollect_eq store _ _ (by omega)]
      have hpw := descIndices_pairwise a.eventCount c hc
      unfold descIndices at hpw
      rw [List.pairwise_filterMap]
      refine hpw.imp ?_
      intro i1 i2 hlt e he e' he'
      rw [Option.mem_def] at he he'
      rw [hwf i1 e he, hwf i2 e' he']
      exact hlt
    cases limit with
    | none =>
      simpa only [OnchainAuditLogger.getEvents] using key a.eventCount (Nat.le_refl _)
    | some l =>
      by_cases h0 : l = 0
      · simpa [OnchainAuditLogger.getEvents, h0] using key a.eventCount (Nat.le_refl _)
      · simpa [OnchainAuditLogger.getEvents, if_neg h0] using
          key (min l a.eventCount) (Nat.min_le_right _ _)

/-- Witness for C10: on `demoStore` (events 0 and 2 present, 1 closed) with
`eventCount = 3` and `limit = 2`, `getEvents` probes indices 2 and 1,
returns only event 2 (1 ≤ 2 events), and the result is descending. -/
theorem audit_getEvents_spec_witness :
    (∀ l, (some 2 : Option Nat) = some l → 0 < l) ∧
    (OnchainAuditLogger.getEvents (some demoAuthority) demoStore (some 2) =
      (descIndices demoAuthority.eventCount
        (claimedCount demoAuthority (some 2))).filterMap demoStore) ∧
    ((OnchainAuditLogger.getEvents (some demoAuthority) demoStore (some 2)).length ≤
      claimedCount demoAuthority (some 2)) ∧
    List.Pairwise (fun e1 e2 => e2.eventIndex < e1.eventIndex)
      (OnchainAuditLogger.getEvents (some demoAuthority) demoStore (some 2)) :=
  ⟨by
      intro l hl
      injection hl with h
      omega,
   (audit_getEvents_spec.2.1 demoAuthority demoStore (some 2)
      (by intro l hl; injection hl with h; omega)).1,
   (audit_getEvents_spec.2.1 demoAuthority demoStore (some 2)
      (by intro l hl; injection hl with h; omega)).2,
   audit_getEvents_spec.2.2 demoAuthority demoStore (some 2) demoStore_wf⟩
